import Mathlib

/-!
Shallow embedding of the IP-Analyzer processing core
(src/api_clients.py and src/processing.py) and verification of the
specification claims about it.

External dependencies of the Python code (the `ipaddress` library, the
ipinfo.io network service, `dateutil` date parsing and the
`zoneinfo`/`pytz` timezone databases) are modelled as explicit
environment/oracle parameters; the repository's own control flow and
data manipulation are translated directly.
-/

set_option maxHeartbeats 1000000
set_option maxRecDepth 8000

namespace IPAnalyzer

/-! ## Model of the `ipaddress` dependency

`ipaddress.ip_address(s)` either raises `ValueError` (modelled `none`) or
returns an address object; the only attributes the repository reads are
the five scope booleans. -/

/-- Scope attributes of a parsed IP address (`ipaddress` object). -/
structure IPScope where
  is_private : Bool
  is_loopback : Bool
  is_link_local : Bool
  is_multicast : Bool
  is_reserved : Bool
deriving DecidableEq

/-- Environment modelling `ipaddress.ip_address`: `none` models a
`ValueError` on a syntactically invalid string. -/
structure IpEnv where
  parseIP : String → Option IPScope

/-- `api_clients.is_valid_ip`: rejects empty / whitespace-only strings,
otherwise valid iff `ipaddress.ip_address` does not raise. -/
def is_valid_ip (env : IpEnv) (ip_str : String) : Bool :=
  if ip_str.isEmpty then false
  else if ip_str.data.all (fun c => c.isWhitespace) then false
  else (env.parseIP ip_str).isSome

/-! ## Model of the ipinfo.io enrichment record and network -/

/-- The six-key result dictionary built by `get_ip_info`
(`api_clients.py` lines 253-256). The Python dict always holds exactly
these six keys; the structure type captures that shape invariant. -/
structure IpInfoResult where
  isp : String
  city : String
  region : String
  country : String
  hostname : String
  error : Option String
deriving DecidableEq

/-- Initial record value (`api_clients.py` lines 253-256). -/
def defaultResult : IpInfoResult :=
  { isp := "N/A", city := "N/A", region := "N/A", country := "N/A",
    hostname := "N/A", error := none }

/-- Outcome of the `requests.get` call to ipinfo.io together with JSON
decoding, covering every `except` arm of `api_clients.py` lines 289-336.
On success the JSON body's relevant fields are given as optional
strings (`none` models an absent key). -/
inductive NetOutcome where
  | success (org isp city region country hostname : Option String)
  | timeout
  | httpError (status : Nat)
  | connectionError
  | requestError
  | jsonDecodeError
  | otherError
deriving DecidableEq

/-- Python `str.strip()`: drop leading and trailing whitespace. -/
def pyStrip (s : String) : String :=
  String.mk (((s.data.dropWhile fun c => c.isWhitespace).reverse.dropWhile
    fun c => c.isWhitespace).reverse)

/-- Require at least one leading character satisfying `p`, then drop the
maximal run of them (models a `+`-quantified character class). -/
def dropRun1 (p : Char → Bool) (cs : List Char) : Option (List Char) :=
  match cs with
  | [] => none
  | c :: rest => if p c then some (rest.dropWhile p) else none

/-- Model of `re.match(r"^(AS\d+)\s+(.*)", org, re.IGNORECASE)` returning
group 2 (`api_clients.py` line 297): case-insensitive `AS`, one or more
digits, one or more whitespace, then the remainder of the line. -/
def asMatch (org : String) : Option String :=
  match org.data with
  | a :: s :: rest =>
    if ((a == 'A') || (a == 'a')) && ((s == 'S') || (s == 's')) then
      match dropRun1 (fun c => c.isDigit) rest with
      | none => none
      | some rest2 =>
        match dropRun1 (fun c => c.isWhitespace) rest2 with
        | none => none
        | some rest3 => some (String.mk (rest3.takeWhile fun c => c != '\n'))
    else none
  | _ => none

/-- `data.get(k) or "N/A"`: absent or empty string defaults to `"N/A"`. -/
def orNA (o : Option String) : String :=
  match o with
  | some s => if s = "" then "N/A" else s
  | none => "N/A"

/-- First step of the ISP computation (`api_clients.py` lines 295-299):
strip a leading `AS<digits>` token from the `org` field. -/
def ispFromOrg (org : Option String) : String :=
  if org.getD "" = "" then "N/A"
  else
    match asMatch (org.getD "") with
    | some g2 => pyStrip g2
    | none => org.getD ""

/-- Full ISP computation (`api_clients.py` lines 295-300 and 303):
fall back to the `isp` field when the `org`-derived value is empty or
`"N/A"`, and finally default to `"N/A"` when still empty. -/
def ispFromData (org ispField : Option String) : String :=
  if ispFromOrg org = "" ∨ ispFromOrg org = "N/A" then
    if ispField.getD "N/A" = "" then "N/A" else ispField.getD "N/A"
  else ispFromOrg org

/-- Apply a network outcome to the record, mirroring the `try`/`except`
chain of `api_clients.py` lines 289-336. -/
def applyNet (o : NetOutcome) (base : IpInfoResult) : IpInfoResult :=
  match o with
  | .success org ispField city region country hostname =>
    { base with
      isp := ispFromData org ispField, city := orNA city,
      region := orNA region, country := orNA country,
      hostname := orNA hostname, error := none }
  | .timeout => { base with error := some "Timeout IPinfo" }
  | .httpError status =>
    { base with error :=
      (if status = 401 ∨ status = 403 then some "Token Inválido/Prohibido"
       else if status = 404 then some "No Encontrado (ipinfo)"
       else if status = 429 then some "Límite API Excedido"
       else some ("HTTP Error " ++ toString status)) }
  | .connectionError => { base with error := some "Error de Conexión" }
  | .requestError => { base with error := some "Error de Red" }
  | .jsonDecodeError => { base with error := some "Respuesta Inválida" }
  | .otherError => { base with error := some "Error Interno (IPinfo)" }

/-- Scope classification chain of `api_clients.py` lines 270-275:
first matching attribute wins. -/
def scopeKind (s : IPScope) : Option String :=
  if s.is_private then some "Privada"
  else if s.is_loopback then some "Loopback"
  else if s.is_link_local then some "Link-Local"
  else if s.is_multicast then some "Multicast"
  else if s.is_reserved then some "Reservada"
  else none

/-- The per-run enrichment cache (Python dict, keyed by IP string). -/
abbrev Cache := List (String × IpInfoResult)

/-- Dict lookup on the cache. -/
def cacheFind (cache : Cache) (ip : String) : Option IpInfoResult :=
  match cache with
  | [] => none
  | (k, v) :: rest => if k = ip then some v else cacheFind rest ip

/-- Result of one `get_ip_info` call: the returned record, the cache
after the call, and whether an ipinfo.io network request was issued. -/
structure LookupOut where
  result : IpInfoResult
  cache : Cache
  networkCalled : Bool

/-- `api_clients.get_ip_info`, with the network modelled by the oracle
`net` and the cache threaded explicitly.  A missing token is modelled as
the empty string (Python falsiness of `token`).  The process-global
"already logged" flag only affects logging and is not modelled. -/
def get_ip_info (env : IpEnv) (net : String → NetOutcome)
    (ip_address token : String) (cache : Cache) : LookupOut :=
  match cacheFind cache ip_address with
  | some r => ⟨r, cache, false⟩
  | none =>
    if is_valid_ip env ip_address = false then
      ⟨{ defaultResult with error := some "IP Inválida (Formato)" }, cache, false⟩
    else if token = "" then
      ⟨{ defaultResult with error := some "Token IPinfo Faltante" }, cache, false⟩
    else
      match env.parseIP ip_address with
      | none =>
        ⟨{ defaultResult with error := some "IP Inválida (Interno)" }, cache, false⟩
      | some scope =>
        match scopeKind scope with
        | some kind =>
          let r := { defaultResult with
            isp := "Red " ++ kind, error := some ("IP " ++ kind) }
          ⟨r, (ip_address, r) :: cache, false⟩
        | none =>
          let r := applyNet (net ip_address) defaultResult
          ⟨r, (ip_address, r) :: cache, true⟩

/-! ## Helper lemmas about the enrichment layer -/

theorem cacheFind_nil (ip : String) : cacheFind [] ip = none := rfl

theorem cacheFind_cons (k : String) (v : IpInfoResult) (rest : Cache) (ip : String) :
    cacheFind ((k, v) :: rest) ip = if k = ip then some v else cacheFind rest ip := rfl

/-- A record whose five geolocation fields are non-empty strings. -/
def goodRecord (r : IpInfoResult) : Prop :=
  r.isp ≠ "" ∧ r.city ≠ "" ∧ r.region ≠ "" ∧ r.country ≠ "" ∧ r.hostname ≠ ""

/-- Every record reachable in the cache is well-formed. -/
def goodCache (c : Cache) : Prop :=
  ∀ k r, cacheFind c k = some r → goodRecord r

theorem orNA_ne_empty (o : Option String) : orNA o ≠ "" := by
  rcases o with _ | s
  · decide
  · by_cases h : s = ""
    · simp [orNA, h]
    · simp [orNA, h]

theorem ispFromData_ne_empty (a b : Option String) : ispFromData a b ≠ "" := by
  unfold ispFromData
  split
  · split
    · decide
    · assumption
  · rename_i h
    intro he
    exact h (Or.inl he)

theorem red_append_ne_empty (t : String) : ("Red " ++ t) ≠ "" := by
  intro h
  have h2 := congrArg String.length h
  rw [String.length_append] at h2
  have e1 : ("Red " : String).length = 4 := rfl
  have e2 : ("" : String).length = 0 := rfl
  rw [e1, e2] at h2
  omega

theorem applyNet_good (o : NetOutcome) : goodRecord (applyNet o defaultResult) := by
  cases o
  case success org ispField city region country hostname =>
    exact ⟨ispFromData_ne_empty _ _, orNA_ne_empty _, orNA_ne_empty _,
      orNA_ne_empty _, orNA_ne_empty _⟩
  case httpError status =>
    refine ⟨?_, ?_, ?_, ?_, ?_⟩ <;> simp [applyNet, defaultResult]
  all_goals exact ⟨by decide, by decide, by decide, by decide, by decide⟩

theorem goodCache_cons {c : Cache} {ip : String} {r : IpInfoResult}
    (hr : goodRecord r) (hc : goodCache c) : goodCache ((ip, r) :: c) := by
  intro k r2 hf
  rw [cacheFind_cons] at hf
  split at hf
  · cases hf; exact hr
  · exact hc k r2 hf

theorem scopeKind_isSome (s : IPScope)
    (h : s.is_private ∨ s.is_loopback ∨ s.is_link_local ∨ s.is_multicast ∨ s.is_reserved) :
    ∃ kind, scopeKind s = some kind := by
  unfold scopeKind
  cases hp : s.is_private <;> cases hl : s.is_loopback <;>
    cases hll : s.is_link_local <;> cases hm : s.is_multicast <;>
    cases hr : s.is_reserved <;> simp_all

/-! ## Claim theorems about `get_ip_info` -/

/-- C2: for an uncached, syntactically valid IP whose parsed address is
private, loopback, link-local, multicast or reserved, `get_ip_info`
issues no network call, returns a record with
`error = "IP <kind>"` and `isp = "Red <kind>"` where `<kind>` is the
first matching scope kind, and that record is stored in the cache. -/
theorem scope_fast_path_no_network (env : IpEnv) (net : String → NetOutcome)
    (ip token : String) (cache : Cache) (scope : IPScope)
    (hmiss : cacheFind cache ip = none)
    (hvalid : is_valid_ip env ip = true)
    (htok : token ≠ "")
    (hparse : env.parseIP ip = some scope)
    (hscope : scope.is_private ∨ scope.is_loopback ∨ scope.is_link_local ∨
      scope.is_multicast ∨ scope.is_reserved) :
    ∃ kind, scopeKind scope = some kind ∧
      (get_ip_info env net ip token cache).networkCalled = false ∧
      (get_ip_info env net ip token cache).result =
        { defaultResult with isp := "Red " ++ kind, error := some ("IP " ++ kind) } ∧
      cacheFind (get_ip_info env net ip token cache).cache ip =
        some (get_ip_info env net ip token cache).result := by
  obtain ⟨kind, hkind⟩ := scopeKind_isSome scope hscope
  refine ⟨kind, hkind, ?_⟩
  simp [get_ip_info, hmiss, hvalid, htok, hparse, hkind, cacheFind_cons]

/-- C9: for an uncached, syntactically invalid IP string, `get_ip_info`
returns the invalid-format record with every geolocation field `"N/A"`,
leaves the cache unchanged and issues no network call. -/
theorem invalid_format_not_cached (env : IpEnv) (net : String → NetOutcome)
    (ip token : String) (cache : Cache)
    (hmiss : cacheFind cache ip = none)
    (hinvalid : is_valid_ip env ip = false) :
    (get_ip_info env net ip token cache).result =
      ⟨"N/A", "N/A", "N/A", "N/A", "N/A", some "IP Inválida (Formato)"⟩ ∧
    (get_ip_info env net ip token cache).cache = cache ∧
    (get_ip_info env net ip token cache).networkCalled = false := by
  simp [get_ip_info, hmiss, hinvalid, defaultResult]

/-- C4: two consecutive calls for the same IP return the same record,
issue at most one network lookup in total, and every record already in
the cache (in particular the one stored on first access) is still found
unchanged after both calls. -/
theorem lookup_idempotent_cached (env : IpEnv) (net : String → NetOutcome)
    (ip token : String) (cache : Cache) :
    (get_ip_info env net ip token (get_ip_info env net ip token cache).cache).result =
      (get_ip_info env net ip token cache).result ∧
    ((if (get_ip_info env net ip token cache).networkCalled then 1 else 0) +
     (if (get_ip_info env net ip token
        (get_ip_info env net ip token cache).cache).networkCalled then 1 else 0) ≤ 1) ∧
    (∀ k r, cacheFind cache k = some r →
      cacheFind (get_ip_info env net ip token cache).cache k = some r ∧
      cacheFind (get_ip_info env net ip token
        (get_ip_info env net ip token cache).cache).cache k = some r) := by
  rcases h : cacheFind cache ip with _ | r
  · by_cases hv : is_valid_ip env ip = false
    · simp [get_ip_info, h, hv]
    · by_cases ht : token = ""
      · simp [get_ip_info, h, hv, ht]
      · rcases hp : env.parseIP ip with _ | scope
        · simp [get_ip_info, h, hv, ht, hp]
        · rcases hk : scopeKind scope with _ | kind
          · -- network branch: first call inserts, second call hits the cache
            refine ⟨?_, ?_, ?_⟩
            · simp [get_ip_info, h, hv, ht, hp, hk, cacheFind_cons]
            · simp [get_ip_info, h, hv, ht, hp, hk, cacheFind_cons]
            · intro k r hkr
              have hne : ip ≠ k := by
                intro he; rw [he] at h; rw [h] at hkr; exact Option.noConfusion hkr
              simp [get_ip_info, h, hv, ht, hp, hk, cacheFind_cons, hne, hkr]
          · refine ⟨?_, ?_, ?_⟩
            · simp [get_ip_info, h, hv, ht, hp, hk, cacheFind_cons]
            · simp [get_ip_info, h, hv, ht, hp, hk, cacheFind_cons]
            · intro k r hkr
              have hne : ip ≠ k := by
                intro he; rw [he] at h; rw [h] at hkr; exact Option.noConfusion hkr
              simp [get_ip_info, h, hv, ht, hp, hk, cacheFind_cons, hne, hkr]
  · simp [get_ip_info, h]

/-- C10: `get_ip_info` is a total function (the embedding is a plain
`def`, mirroring that every exception arm is caught in the source), its
result always has exactly the six keys of `IpInfoResult` (enforced by
the structure type), and — given that every cached record is
well-formed — the five geolocation fields of the result are non-empty
strings and the cache stays well-formed. -/
theorem get_ip_info_shape_invariant (env : IpEnv) (net : String → NetOutcome)
    (ip token : String) (cache : Cache) (h : goodCache cache) :
    goodRecord (get_ip_info env net ip token cache).result ∧
    goodCache (get_ip_info env net ip token cache).cache := by
  rcases hm : cacheFind cache ip with _ | r
  · by_cases hv : is_valid_ip env ip = false
    · have hc : (get_ip_info env net ip token cache).cache = cache := by
        simp [get_ip_info, hm, hv]
      constructor
      · simp [get_ip_info, hm, hv, defaultResult, goodRecord]
      · rw [hc]; exact h
    · by_cases ht : token = ""
      · have hc : (get_ip_info env net ip token cache).cache = cache := by
          simp [get_ip_info, hm, hv, ht]
        constructor
        · simp [get_ip_info, hm, hv, ht, defaultResult, goodRecord]
        · rw [hc]; exact h
      · rcases hp : env.parseIP ip with _ | scope
        · have hc : (get_ip_info env net ip token cache).cache = cache := by
            simp [get_ip_info, hm, hv, ht, hp]
          constructor
          · simp [get_ip_info, hm, hv, ht, hp, defaultResult, goodRecord]
          · rw [hc]; exact h
        · rcases hk : scopeKind scope with _ | kind
          · have hg : goodRecord (applyNet (net ip) defaultResult) := applyNet_good _
            have hres : (get_ip_info env net ip token cache).result =
                applyNet (net ip) defaultResult := by
              simp [get_ip_info, hm, hv, ht, hp, hk]
            have hc : (get_ip_info env net ip token cache).cache =
                (ip, applyNet (net ip) defaultResult) :: cache := by
              simp [get_ip_info, hm, hv, ht, hp, hk]
            rw [hres, hc]
            exact ⟨hg, goodCache_cons hg h⟩
          · have hg : goodRecord { defaultResult with
                isp := "Red " ++ kind, error := some ("IP " ++ kind) } := by
              refine ⟨red_append_ne_empty kind, ?_, ?_, ?_, ?_⟩ <;>
                simp [defaultResult]
            have hres : (get_ip_info env net ip token cache).result =
                { defaultResult with
                  isp := "Red " ++ kind, error := some ("IP " ++ kind) } := by
              simp [get_ip_info, hm, hv, ht, hp, hk]
            have hc : (get_ip_info env net ip token cache).cache =
                (ip, { defaultResult with
                  isp := "Red " ++ kind, error := some ("IP " ++ kind) }) :: cache := by
              simp [get_ip_info, hm, hv, ht, hp, hk]
            rw [hres, hc]
            exact ⟨hg, goodCache_cons hg h⟩
  · have hres : (get_ip_info env net ip token cache).result = r := by
      simp [get_ip_info, hm]
    have hc : (get_ip_info env net ip token cache).cache = cache := by
      simp [get_ip_info, hm]
    rw [hres, hc]
    exact ⟨h ip r hm, h⟩

/-! ## Concrete instances used by the witnesses -/

/-- A private-network scope (e.g. what `ipaddress` reports for 192.168.1.1). -/
def privScope : IPScope := ⟨true, false, false, false, false⟩

/-- A public scope (e.g. what `ipaddress` reports for 8.8.8.8). -/
def pubScope : IPScope := ⟨false, false, false, false, false⟩

/-- A small concrete `ipaddress` model for witnesses. -/
def envA : IpEnv :=
  ⟨fun s => if s = "192.168.1.1" then some privScope
    else if s = "8.8.8.8" then some pubScope else none⟩

/-- A concrete network oracle for witnesses. -/
def netA : String → NetOutcome :=
  fun _ => .success (some "AS15169 Google LLC") none (some "Mountain View")
    (some "California") (some "US") (some "dns.google")

/-- A concrete non-empty cache for witnesses. -/
def cacheA : Cache := [("1.2.3.4", defaultResult)]

/-- Witness for C2 at IP 192.168.1.1 with an empty cache. -/
theorem scope_fast_path_no_network_witness :
    ∃ kind, scopeKind privScope = some kind ∧
      (get_ip_info envA netA "192.168.1.1" "tok" []).networkCalled = false ∧
      (get_ip_info envA netA "192.168.1.1" "tok" []).result =
        { defaultResult with isp := "Red " ++ kind, error := some ("IP " ++ kind) } ∧
      cacheFind (get_ip_info envA netA "192.168.1.1" "tok" []).cache "192.168.1.1" =
        some (get_ip_info envA netA "192.168.1.1" "tok" []).result :=
  scope_fast_path_no_network envA netA "192.168.1.1" "tok" [] privScope rfl
    (by decide) (by decide) rfl (Or.inl rfl)

/-- Witness for C9 at the malformed string "999.999.1.1". -/
theorem invalid_format_not_cached_witness :
    (get_ip_info envA netA "999.999.1.1" "tok" []).result =
      ⟨"N/A", "N/A", "N/A", "N/A", "N/A", some "IP Inválida (Formato)"⟩ ∧
    (get_ip_info envA netA "999.999.1.1" "tok" []).cache = [] ∧
    (get_ip_info envA netA "999.999.1.1" "tok" []).networkCalled = false :=
  invalid_format_not_cached envA netA "999.999.1.1" "tok" [] rfl (by decide)

/-- Witness for C4 at IP 8.8.8.8 over a cache holding 1.2.3.4. -/
theorem lookup_idempotent_cached_witness :
    cacheFind (get_ip_info envA netA "8.8.8.8" "tok"
      (get_ip_info envA netA "8.8.8.8" "tok" cacheA).cache).cache "1.2.3.4" =
      some defaultResult :=
  ((lookup_idempotent_cached envA netA "8.8.8.8" "tok" cacheA).2.2
    "1.2.3.4" defaultResult rfl).2

/-- Witness for C10 at IP 8.8.8.8 with an empty cache. -/
theorem get_ip_info_shape_invariant_witness :
    goodRecord (get_ip_info envA netA "8.8.8.8" "tok" []).result ∧
    goodCache (get_ip_info envA netA "8.8.8.8" "tok" []).cache :=
  get_ip_info_shape_invariant envA netA "8.8.8.8" "tok" []
    (fun _ _ hf => nomatch hf)

/-! ## Embedding of the timestamp normalizer (`processing.py` lines 83-142)

The `dateutil` parser, the `zoneinfo`/`pytz` timezone databases and
non-UTC zone rendering are modelled as oracles in a `TZEnv`; the
repository's guard, branch and error-string logic is translated
directly.  A datetime value is its wall-clock fields; an "aware UTC"
instant is represented by its UTC fields. -/

/-- Wall-clock fields of a Python `datetime`. -/
structure DTFields where
  year : Nat
  month : Nat
  day : Nat
  hour : Nat
  minute : Nat
  second : Nat
deriving DecidableEq

/-- Outcome of `dateutil.parser.parse` (`processing.py` lines 95-110):
success carries the parsed fields and the explicit UTC offset in
minutes (`none` models a naive datetime, including a tzinfo whose
`utcoffset` is `None`); the three error constructors model the three
`except` arms. -/
inductive ParseOutcome where
  | ok (f : DTFields) (offsetMinutes : Option Int)
  | valueError
  | typeError
  | otherError
deriving DecidableEq

/-- Outcome of a timezone-database lookup (`ZoneInfo(name)` or
`pytz.timezone(name)`): a zone object (abstract id), the library's
not-found error (`ZoneInfoNotFoundError` / `UnknownTimeZoneError`), or
any other exception. -/
inductive TZLookupRes where
  | found (z : Nat)
  | notFound
  | failure
deriving DecidableEq

/-- Environment for the timestamp normalizer: module-level dependency
flags of `processing.py` and the external oracles.  `renderZone z f`
models `astimezone` to the zone object `z` followed by
`strftime('%Y-%m-%d %H:%M:%S %Z%z')`; `none` models an exception
during that conversion. -/
structure TZEnv where
  dateutilAvailable : Bool
  dateParse : String → ParseOutcome
  gmtZonesIncomplete : Bool
  useZoneinfo : Bool
  pytzAvailable : Bool
  zoneinfoLookup : String → TZLookupRes
  pytzLookup : String → TZLookupRes
  renderZone : Nat → DTFields → Option String
  /-- Whether `from zoneinfo import ... ZoneInfoNotFoundError ...`
  (`processing.py` line 14) succeeded, i.e. the name
  `ZoneInfoNotFoundError` is bound.  Distinct from `useZoneinfo`, which
  can be reset after a successful import. -/
  zoneinfoImported : Bool
  /-- Whether `from pytz import UnknownTimeZoneError`
  (`processing.py` line 21) succeeded, i.e. the name
  `UnknownTimeZoneError` is bound.  Distinct from `pytzAvailable`. -/
  pytzImported : Bool

/-! ### Calendar arithmetic for `astimezone(UTC)` on offset-aware input
(Euclidean day/civil conversions; only used on the aware branch). -/

/-- Days since 1970-01-01 of a civil date. -/
def daysFromCivil (y m d : Int) : Int :=
  let yy := if m ≤ 2 then y - 1 else y
  let era := (if 0 ≤ yy then yy else yy - 399) / 400
  let yoe := yy - era * 400
  let mp := if 2 < m then m - 3 else m + 9
  let doy := (153 * mp + 2) / 5 + d - 1
  let doe := yoe * 365 + yoe / 4 - yoe / 100 + doy
  era * 146097 + doe - 719468

/-- Civil date of a day count since 1970-01-01. -/
def civilFromDays (z0 : Int) : Int × Int × Int :=
  let z := z0 + 719468
  let era := (if 0 ≤ z then z else z - 146096) / 146097
  let doe := z - era * 146097
  let yoe := (doe - doe / 1460 + doe / 36524 - doe / 146096) / 365
  let y := yoe + era * 400
  let doy := doe - (365 * yoe + yoe / 4 - yoe / 100)
  let mp := (5 * doy + 2) / 153
  let d := doy - (153 * mp + 2) / 5 + 1
  let m := if mp < 10 then mp + 3 else mp - 9
  (if m ≤ 2 then y + 1 else y, m, d)

/-- Seconds since the epoch of UTC wall-clock fields. -/
def epochOfUTC (f : DTFields) : Int :=
  daysFromCivil f.year f.month f.day * 86400 +
    (f.hour * 3600 + f.minute * 60 + f.second)

/-- `aware_dt.astimezone(dateutil UTC)`: shift the wall-clock fields by
the explicit offset (`processing.py` line 101). -/
def toUTCfromAware (f : DTFields) (offMinutes : Int) : DTFields :=
  let t := epochOfUTC f - offMinutes * 60
  let sod := t.emod 86400
  match civilFromDays (t.ediv 86400) with
  | (y, m, d) =>
    ⟨y.toNat, m.toNat, d.toNat, (sod / 3600).toNat, (sod / 60 % 60).toNat,
      (sod % 60).toNat⟩

/-- The UTC instant established by a successful parse
(`processing.py` lines 96-101): naive fields are re-tagged as UTC
unchanged; aware fields are converted. -/
def utcInstant (f : DTFields) (off : Option Int) : DTFields :=
  match off with
  | none => f
  | some o => toUTCfromAware f o

/-! ### Rendering of `%Y-%m-%d %H:%M:%S` -/

/-- Zero-padded decimal digit (low digit of `n`). -/
def digitChar (n : Nat) : Char := Char.ofNat (48 + n % 10)

/-- Character list of `strftime('%Y-%m-%d %H:%M:%S')` on the fields
(years rendered as four digits). -/
def fmtChars (f : DTFields) : List Char :=
  [digitChar (f.year / 1000), digitChar (f.year / 100), digitChar (f.year / 10),
   digitChar f.year, '-', digitChar (f.month / 10), digitChar f.month, '-',
   digitChar (f.day / 10), digitChar f.day, ' ', digitChar (f.hour / 10),
   digitChar f.hour, ':', digitChar (f.minute / 10), digitChar f.minute, ':',
   digitChar (f.second / 10), digitChar f.second]

/-- `strftime('%Y-%m-%d %H:%M:%S')` on the fields. -/
def fmtYmdHms (f : DTFields) : String := String.mk (fmtChars f)

/-- `s.startsWith p` modelled on character lists. -/
def startsWithChars : List Char → List Char → Bool
  | _, [] => true
  | [], _ :: _ => false
  | c :: cs, p :: ps => c == p && startsWithChars cs ps

/-- Python `str.startswith`. -/
def pyStartsWith (s p : String) : Bool := startsWithChars s.data p.data

/-- How the target timezone object is obtained
(`processing.py` lines 116-131): the `Etc/GMT`-via-pytz special case,
the literal `"UTC"` short cut, `zoneinfo`, `pytz`, or no library at
all. -/
inductive TZResolution where
  | utcDirect
  | noLib
  | lib (r : TZLookupRes)
deriving DecidableEq

/-- The resolution if-chain of `processing.py` lines 116-131. -/
def resolveTargetTZ (env : TZEnv) (tz : String) : TZResolution :=
  if env.gmtZonesIncomplete && pyStartsWith tz "Etc/GMT" && env.pytzAvailable then
    .lib (env.pytzLookup tz)
  else if tz = "UTC" then .utcDirect
  else if env.useZoneinfo then .lib (env.zoneinfoLookup tz)
  else if env.pytzAvailable then .lib (env.pytzLookup tz)
  else .noLib

/-- What a call to `parse_and_convert_timezone` does: return a value,
or let an exception propagate out of the function. -/
inductive TZConvOut where
  | ret (instant : Option DTFields) (display : String)
  | raised
deriving DecidableEq

/-- `processing.parse_and_convert_timezone`.  For the `"UTC"` target,
`astimezone(dateutil_UTC)` is the identity on the already-UTC fields and
`strftime('%Y-%m-%d %H:%M:%S %Z%z')` appends `" UTC+0000"`; for the
no-library fallback (line 130) the suffix is `" UTC"`.

When an exception occurs inside the conversion `try` block, the first
handler clause `except (ZoneInfoNotFoundError, UnknownTimeZoneError)`
(line 135) evaluates both names: if either conditional import failed,
that evaluation raises `NameError`, which bypasses the later
`except Exception` and propagates out of the function (`.raised`).
Only with both names bound does the error-string degradation of
lines 135-140 apply. -/
def parse_and_convert_timezone (env : TZEnv) (timestamp_str target_tz_str : String) :
    TZConvOut :=
  if timestamp_str = "" ∨ pyStrip timestamp_str = "N/A" ∨ pyStrip timestamp_str = "" then
    .ret none "N/A"
  else if env.dateutilAvailable = false then
    .ret none "Error: Falta Dep."
  else
    match env.dateParse timestamp_str with
    | .valueError => .ret none "Error Parsing"
    | .typeError => .ret none "Error Tipo Parsing"
    | .otherError => .ret none "Error Interno (Parseo)"
    | .ok f off =>
      match resolveTargetTZ env target_tz_str with
      | .utcDirect =>
        .ret (some (utcInstant f off)) (fmtYmdHms (utcInstant f off) ++ " UTC+0000")
      | .noLib =>
        .ret (some (utcInstant f off)) (fmtYmdHms (utcInstant f off) ++ " UTC")
      | .lib .notFound =>
        if env.zoneinfoImported && env.pytzImported then
          .ret (some (utcInstant f off)) "Error TZ Interno"
        else .raised
      | .lib .failure =>
        if env.zoneinfoImported && env.pytzImported then
          .ret (some (utcInstant f off)) "Error Interno (TZ Conv.)"
        else .raised
      | .lib (.found z) =>
        match env.renderZone z (utcInstant f off) with
        | some s => .ret (some (utcInstant f off)) s
        | none =>
          if env.zoneinfoImported && env.pytzImported then
            .ret (some (utcInstant f off)) "Error Interno (TZ Conv.)"
          else .raised

/-! ### Model of `dateutil` on canonical `YYYY-MM-DD HH:MM:SS` input

`dateutil.parser.parse` accepts far more formats; this models its
behaviour on exactly the canonical digits form (which it parses as a
naive datetime), enough to state the render round-trip of C8. -/

/-- Numeric value of a decimal digit character. -/
def dval (c : Char) : Nat := c.toNat - 48

/-- Leap-year rule of the proleptic Gregorian calendar. -/
def isLeapYear (y : Nat) : Bool := (y % 4 == 0 && y % 100 != 0) || (y % 400 == 0)

/-- Days in a month. -/
def daysInMonth (y m : Nat) : Nat :=
  if m = 2 then (if isLeapYear y then 29 else 28)
  else if m = 4 ∨ m = 6 ∨ m = 9 ∨ m = 11 then 30
  else 31

/-- Fields acceptable to Python's `datetime` constructor (which
`dateutil` uses): real calendar date, in-range time, year 1-9999. -/
def ValidDT (f : DTFields) : Prop :=
  1 ≤ f.year ∧ f.year ≤ 9999 ∧ 1 ≤ f.month ∧ f.month ≤ 12 ∧
  1 ≤ f.day ∧ f.day ≤ daysInMonth f.year f.month ∧
  f.hour ≤ 23 ∧ f.minute ≤ 59 ∧ f.second ≤ 59

instance (f : DTFields) : Decidable (ValidDT f) := by
  unfold ValidDT; infer_instance

/-- Canonical-format parse on the character list. -/
def parseIsoCanonicalChars (cs : List Char) : ParseOutcome :=
  match cs with
  | [y1, y2, y3, y4, sep1, m1, m2, sep2, d1, d2, sep3,
     h1, h2, sep4, i1, i2, sep5, s1, s2] =>
    if sep1 = '-' ∧ sep2 = '-' ∧ sep3 = ' ' ∧ sep4 = ':' ∧ sep5 = ':' ∧
       y1.isDigit ∧ y2.isDigit ∧ y3.isDigit ∧ y4.isDigit ∧
       m1.isDigit ∧ m2.isDigit ∧ d1.isDigit ∧ d2.isDigit ∧
       h1.isDigit ∧ h2.isDigit ∧ i1.isDigit ∧ i2.isDigit ∧
       s1.isDigit ∧ s2.isDigit then
      if ValidDT ⟨dval y1 * 1000 + dval y2 * 100 + dval y3 * 10 + dval y4,
          dval m1 * 10 + dval m2, dval d1 * 10 + dval d2,
          dval h1 * 10 + dval h2, dval i1 * 10 + dval i2,
          dval s1 * 10 + dval s2⟩ then
        .ok ⟨dval y1 * 1000 + dval y2 * 100 + dval y3 * 10 + dval y4,
          dval m1 * 10 + dval m2, dval d1 * 10 + dval d2,
          dval h1 * 10 + dval h2, dval i1 * 10 + dval i2,
          dval s1 * 10 + dval s2⟩ none
      else .valueError
    else .valueError
  | _ => .valueError

/-- Model of `dateutil.parser.parse` restricted to the canonical
`YYYY-MM-DD HH:MM:SS` grammar (naive, no offset). -/
def parseIsoCanonical (s : String) : ParseOutcome := parseIsoCanonicalChars s.data

/-- A `TZEnv` whose parser is the canonical model and whose `dateutil`
dependency is present. -/
def canonEnv (env : TZEnv) : TZEnv :=
  { env with dateutilAvailable := true, dateParse := parseIsoCanonical }

/-! ### Digit/format lemmas -/

theorem digitChar_isDigit (n : Nat) : (digitChar n).isDigit = true := by
  unfold digitChar
  have h : n % 10 < 10 := Nat.mod_lt _ (by decide)
  revert h
  generalize n % 10 = m
  intro h
  interval_cases m <;> decide

theorem digitChar_dval (n : Nat) : dval (digitChar n) = n % 10 := by
  unfold digitChar dval
  have h : n % 10 < 10 := Nat.mod_lt _ (by decide)
  revert h
  generalize n % 10 = m
  intro h
  interval_cases m <;> decide

theorem digitChar_not_ws (n : Nat) : (digitChar n).isWhitespace = false := by
  unfold digitChar
  have h : n % 10 < 10 := Nat.mod_lt _ (by decide)
  revert h
  generalize n % 10 = m
  intro h
  interval_cases m <;> decide

theorem fmt_length (f : DTFields) : (fmtYmdHms f).length = 19 := rfl

theorem fmt_ne_empty (f : DTFields) : fmtYmdHms f ≠ "" := by
  intro h
  have h2 := congrArg String.length h
  rw [fmt_length] at h2
  exact absurd h2 (by decide)

theorem fmt_ne_na (f : DTFields) : fmtYmdHms f ≠ "N/A" := by
  intro h
  have h2 := congrArg String.length h
  rw [fmt_length] at h2
  exact absurd h2 (by decide)

theorem pyStrip_fmt (f : DTFields) : pyStrip (fmtYmdHms f) = fmtYmdHms f := by
  unfold pyStrip fmtYmdHms fmtChars
  simp [List.dropWhile, digitChar_not_ws]

theorem fmt_guard_false (f : DTFields) :
    ¬(fmtYmdHms f = "" ∨ pyStrip (fmtYmdHms f) = "N/A" ∨ pyStrip (fmtYmdHms f) = "") := by
  rw [pyStrip_fmt]
  intro h
  rcases h with h | h | h
  · exact fmt_ne_empty f h
  · exact fmt_ne_na f h
  · exact fmt_ne_empty f h

theorem daysInMonth_le (y m : Nat) : daysInMonth y m ≤ 31 := by
  unfold daysInMonth
  split
  · split <;> omega
  · split <;> omega

theorem parse_fmt_roundtrip (f : DTFields) (h : ValidDT f) :
    parseIsoCanonical (fmtYmdHms f) = .ok f none := by
  obtain ⟨y, mo, d, hh, mi, ss⟩ := f
  obtain ⟨h1, h2, h3, h4, h5, h6, h7, h8, h9⟩ := h
  simp only at h1 h2 h3 h4 h5 h6 h7 h8 h9
  have hd : d ≤ 31 := le_trans h6 (daysInMonth_le y mo)
  show parseIsoCanonicalChars (fmtChars ⟨y, mo, d, hh, mi, ss⟩) = _
  unfold fmtChars parseIsoCanonicalChars
  dsimp only
  rw [if_pos]
  · have hfe : (⟨dval (digitChar (y / 1000)) * 1000 + dval (digitChar (y / 100)) * 100 +
        dval (digitChar (y / 10)) * 10 + dval (digitChar y),
        dval (digitChar (mo / 10)) * 10 + dval (digitChar mo),
        dval (digitChar (d / 10)) * 10 + dval (digitChar d),
        dval (digitChar (hh / 10)) * 10 + dval (digitChar hh),
        dval (digitChar (mi / 10)) * 10 + dval (digitChar mi),
        dval (digitChar (ss / 10)) * 10 + dval (digitChar ss)⟩ : DTFields) =
        ⟨y, mo, d, hh, mi, ss⟩ := by
      simp only [digitChar_dval, DTFields.mk.injEq]
      refine ⟨?_, ?_, ?_, ?_, ?_, ?_⟩ <;> omega
    rw [hfe, if_pos ⟨h1, h2, h3, h4, h5, h6, h7, h8, h9⟩]
  · exact ⟨rfl, rfl, rfl, rfl, rfl,
      digitChar_isDigit _, digitChar_isDigit _, digitChar_isDigit _, digitChar_isDigit _,
      digitChar_isDigit _, digitChar_isDigit _, digitChar_isDigit _, digitChar_isDigit _,
      digitChar_isDigit _, digitChar_isDigit _, digitChar_isDigit _, digitChar_isDigit _,
      digitChar_isDigit _, digitChar_isDigit _⟩

theorem resolve_utc (env : TZEnv) : resolveTargetTZ env "UTC" = .utcDirect := by
  unfold resolveTargetTZ
  have hsw : pyStartsWith "UTC" "Etc/GMT" = false := rfl
  simp [hsw]

theorem ok_branch_not_none (env : TZEnv) (s tz : String) (f : DTFields) (off : Option Int)
    (hguard : ¬(s = "" ∨ pyStrip s = "N/A" ∨ pyStrip s = ""))
    (hdep : env.dateutilAvailable = true)
    (hparse : env.dateParse s = .ok f off) :
    ∀ d, parse_and_convert_timezone env s tz ≠ .ret none d := by
  intro d
  rcases hr : resolveTargetTZ env tz with _ | _ | r
  · simp [parse_and_convert_timezone, hguard, hdep, hparse, hr]
  · simp [parse_and_convert_timezone, hguard, hdep, hparse, hr]
  · rcases r with z | _ | _
    · rcases hz : env.renderZone z (utcInstant f off) with _ | out
      · by_cases hb : (env.zoneinfoImported && env.pytzImported) = true <;>
          simp [parse_and_convert_timezone, hguard, hdep, hparse, hr, hz, hb]
      · simp [parse_and_convert_timezone, hguard, hdep, hparse, hr, hz]
    · by_cases hb : (env.zoneinfoImported && env.pytzImported) = true <;>
        simp [parse_and_convert_timezone, hguard, hdep, hparse, hr, hb]
    · by_cases hb : (env.zoneinfoImported && env.pytzImported) = true <;>
        simp [parse_and_convert_timezone, hguard, hdep, hparse, hr, hb]

/-! ## Claim theorems about `parse_and_convert_timezone` -/

/-- C7: empty, whitespace-only or `"N/A"`-trimming input yields
`(None, "N/A")`; and — with the `dateutil` dependency available — the
function returns an instant of `None` iff the input was empty-like or
parsing failed (in particular, on those inputs it returns normally). -/
theorem empty_or_unparsed_iff_none (env : TZEnv) (s tz : String)
    (hdep : env.dateutilAvailable = true) :
    ((s = "" ∨ pyStrip s = "N/A" ∨ pyStrip s = "") →
      parse_and_convert_timezone env s tz = .ret none "N/A") ∧
    ((∃ d, parse_and_convert_timezone env s tz = .ret none d) ↔
      (s = "" ∨ pyStrip s = "N/A" ∨ pyStrip s = "") ∨
      env.dateParse s = .valueError ∨ env.dateParse s = .typeError ∨
      env.dateParse s = .otherError) := by
  by_cases hg : s = "" ∨ pyStrip s = "N/A" ∨ pyStrip s = ""
  · refine ⟨fun _ => by simp [parse_and_convert_timezone, hg], ?_, ?_⟩
    · intro _
      exact Or.inl hg
    · intro _
      exact ⟨"N/A", by simp [parse_and_convert_timezone, hg]⟩
  · refine ⟨fun h => absurd h hg, ?_⟩
    cases hp : env.dateParse s with
    | ok f off =>
      constructor
      · rintro ⟨d, hd⟩
        exact absurd hd (ok_branch_not_none env s tz f off hg hdep hp d)
      · intro h
        rcases h with h | h | h | h
        · exact absurd h hg
        all_goals exact ParseOutcome.noConfusion h
    | valueError =>
      constructor
      · intro _
        exact Or.inr (Or.inl rfl)
      · intro _
        exact ⟨"Error Parsing", by simp [parse_and_convert_timezone, hg, hdep, hp]⟩
    | typeError =>
      constructor
      · intro _
        exact Or.inr (Or.inr (Or.inl rfl))
      · intro _
        exact ⟨"Error Tipo Parsing", by simp [parse_and_convert_timezone, hg, hdep, hp]⟩
    | otherError =>
      constructor
      · intro _
        exact Or.inr (Or.inr (Or.inr rfl))
      · intro _
        exact ⟨"Error Interno (Parseo)", by simp [parse_and_convert_timezone, hg, hdep, hp]⟩

/-- C8: a parse that yields no explicit offset is anchored as UTC (the
embedding has no notion of a machine-local zone: the naive branch
re-tags the parsed fields unchanged), and rendering with target `"UTC"`
reproduces exactly the parsed date/time digits followed by
`" UTC+0000"`.  Instantiated with the canonical `YYYY-MM-DD HH:MM:SS`
parser model, the output string literally extends the input string. -/
theorem naive_assumed_utc_roundtrip :
    (∀ (env : TZEnv) (s : String) (f : DTFields),
      ¬(s = "" ∨ pyStrip s = "N/A" ∨ pyStrip s = "") →
      env.dateutilAvailable = true →
      env.dateParse s = .ok f none →
      parse_and_convert_timezone env s "UTC" =
        .ret (some f) (fmtYmdHms f ++ " UTC+0000")) ∧
    (∀ (env : TZEnv) (f : DTFields), ValidDT f →
      parseIsoCanonical (fmtYmdHms f) = .ok f none ∧
      parse_and_convert_timezone (canonEnv env) (fmtYmdHms f) "UTC" =
        .ret (some f) (fmtYmdHms f ++ " UTC+0000")) := by
  have ha : ∀ (env : TZEnv) (s : String) (f : DTFields),
      ¬(s = "" ∨ pyStrip s = "N/A" ∨ pyStrip s = "") →
      env.dateutilAvailable = true →
      env.dateParse s = .ok f none →
      parse_and_convert_timezone env s "UTC" =
        .ret (some f) (fmtYmdHms f ++ " UTC+0000") := by
    intro env s f hg hd hp
    simp [parse_and_convert_timezone, hg, hd, hp, resolve_utc, utcInstant]
  refine ⟨ha, ?_⟩
  intro env f hv
  have hp := parse_fmt_roundtrip f hv
  exact ⟨hp, ha (canonEnv env) (fmtYmdHms f) f (fmt_guard_false f) rfl hp⟩

/-! ## Concrete timezone environment and witnesses -/

/-- Concrete environment for witnesses: the standard modern setup —
`zoneinfo` imported and in use, `pytz` not installed (so
`UnknownTimeZoneError` is unbound); every zone lookup fails as
not-found, parser fixed on one instant. -/
def tzEnvB : TZEnv :=
  { dateutilAvailable := true
    dateParse := fun _ => .ok ⟨2024, 3, 15, 10, 30, 0⟩ none
    gmtZonesIncomplete := false
    useZoneinfo := true
    pytzAvailable := false
    zoneinfoLookup := fun _ => .notFound
    pytzLookup := fun _ => .notFound
    renderZone := fun _ _ => none
    zoneinfoImported := true
    pytzImported := false }

/-- The same environment with `pytz` also importable, so both names of
the except clause at `processing.py` line 135 are bound. -/
def tzEnvBoth : TZEnv :=
  { tzEnvB with pytzAvailable := true, pytzImported := true }

/-- C5 (code bug): with `zoneinfo` imported but `pytz` absent — the
standard Python ≥3.9 setup without the optional `pytz` — an unknown
target zone makes `parse_and_convert_timezone` raise (the handler
tuple's unbound `UnknownTimeZoneError` turns the
`ZoneInfoNotFoundError` into a `NameError` that bypasses
`except Exception`), so the established UTC instant is lost; only when
both conditional imports succeeded does the function degrade to
`(utc_instant, "Error TZ Interno")` as the claim states. -/
theorem tz_unknown_zone_crash :
    parse_and_convert_timezone tzEnvB "x" "America/Nowhere" = .raised ∧
    parse_and_convert_timezone tzEnvBoth "x" "America/Nowhere" =
      .ret (some ⟨2024, 3, 15, 10, 30, 0⟩) "Error TZ Interno" := by
  constructor <;> decide

/-- Witness for C7 at the empty input string. -/
theorem empty_or_unparsed_iff_none_witness :
    parse_and_convert_timezone tzEnvB "" "UTC" = .ret none "N/A" :=
  (empty_or_unparsed_iff_none tzEnvB "" "UTC" rfl).1 (Or.inl rfl)

/-- The concrete fields used by the C8 witness. -/
def fC8 : DTFields := ⟨2024, 3, 15, 10, 30, 0⟩

/-- Witness for C8 at 2024-03-15 10:30:00. -/
theorem naive_assumed_utc_roundtrip_witness :
    parseIsoCanonical (fmtYmdHms fC8) = .ok fC8 none ∧
    parse_and_convert_timezone (canonEnv tzEnvB) (fmtYmdHms fC8) "UTC" =
      .ret (some fC8) (fmtYmdHms fC8 ++ " UTC+0000") :=
  naive_assumed_utc_roundtrip.2 tzEnvB fC8 (by decide)

/-! ## Embedding of the extraction adapter
(`api_clients.extract_ip_data_with_gemini`, lines 185-229)

The Gemini call itself and the raw-response/JSON handling are external;
everything up to a successfully parsed JSON array is modelled as a
single outcome, and the per-element validation/dedup loop is translated
directly. -/

/-- A JSON value found under one of the two keys: a string, `null`, or
some other value carrying its Python `str()` rendering. -/
inductive PyVal where
  | pstr (s : String)
  | pnone
  | pother (rendering : String)
deriving DecidableEq

/-- One element of the parsed JSON array: not a dict, a dict missing
one of the two required keys, or a dict with both keys present. -/
inductive ExtractItem where
  | notDict
  | missingKeys
  | entry (ip_address timestamp_str : PyVal)
deriving DecidableEq

/-- A validated `{ip_address, timestamp_str}` candidate dict. -/
structure Candidate where
  ip_address : String
  timestamp_str : String
deriving DecidableEq

/-- `timestamp_str` coercion (`api_clients.py` lines 201-202): `None`
becomes `""`, a non-string becomes its `str()` rendering. -/
def tsToString : PyVal → String
  | .pstr s => s
  | .pnone => ""
  | .pother r => r

/-- `raw.strip().replace(",", ".")` (line 204); the single-character
replacement is a character map. -/
def cleanIPStr (s : String) : String :=
  String.mk ((pyStrip s).data.map fun c => if c = ',' then '.' else c)

/-- The cleaned `(ip, timestamp)` pair of one element, or `none` when
the element is dropped by the shape/type/IP-validity checks
(`api_clients.py` lines 188-210). -/
def itemPair (env : IpEnv) : ExtractItem → Option (String × String)
  | .notDict => none
  | .missingKeys => none
  | .entry ipv tsv =>
    match ipv with
    | .pstr raw =>
      if is_valid_ip env (cleanIPStr raw) then
        some (cleanIPStr raw, pyStrip (tsToString tsv))
      else none
    | .pnone => none
    | .pother _ => none

/-- The validation loop with its `seen_pairs` set
(`api_clients.py` lines 185-218). -/
def validateGo (env : IpEnv) : List ExtractItem → List (String × String) → List Candidate
  | [], _ => []
  | it :: rest, seen =>
    match itemPair env it with
    | none => validateGo env rest seen
    | some p =>
      if p ∈ seen then validateGo env rest seen
      else ⟨p.1, p.2⟩ :: validateGo env rest (p :: seen)

/-- Validation and deduplication of a parsed extraction array. -/
def validateExtracted (env : IpEnv) (items : List ExtractItem) : List Candidate :=
  validateGo env items []

/-- Everything that happens before the validation loop: any fatal path
(configuration error, blocked or empty response, missing `[...]` block,
JSON decode error, non-list JSON, timeout, unexpected exception)
returns `None`; otherwise a JSON array was parsed. -/
inductive GeminiOutcome where
  | fatal
  | parsed (items : List ExtractItem)

/-- `api_clients.extract_ip_data_with_gemini`. -/
def extract_ip_data_with_gemini (env : IpEnv) (outcome : GeminiOutcome)
    (api_key : String) : Option (List Candidate) :=
  if api_key = "" then none
  else
    match outcome with
    | .fatal => none
    | .parsed items => some (validateExtracted env items)

/-! ## Embedding of the pipeline orchestrator
(`processing.process_ip_analysis`, lines 144-272) -/

/-- One per-candidate result dict (`processing.py` lines 236-242). -/
structure AnalysisResult where
  ip_address : String
  raw_timestamp_str : String
  original_timestamp_utc : Option DTFields
  original_timestamp_utc_str : String
  converted_timestamp : String
  ip_info : IpInfoResult
deriving DecidableEq

/-- Assemble one result record (`processing.py` lines 231-242) from the
instant and display string the timestamp conversion returned. -/
def mkAnalysisResult (c : Candidate) (inst : Option DTFields) (disp : String)
    (info : IpInfoResult) : AnalysisResult :=
  { ip_address := c.ip_address
    raw_timestamp_str := c.timestamp_str
    original_timestamp_utc := inst
    original_timestamp_utc_str :=
      match inst with
      | some f => fmtYmdHms f ++ " UTC"
      | none => "N/A"
    converted_timestamp := disp
    ip_info := info }

/-- State threaded through the per-candidate loop, instrumented with
the number of `time.sleep` invocations and network calls; `raised`
records that an exception escaped `parse_and_convert_timezone` and
aborted the loop (the orchestrator has no `except`). -/
structure LoopState where
  results : List AnalysisResult
  cache : Cache
  sleeps : Nat
  netCalls : Nat
  raised : Bool

/-- One iteration of the loop (`processing.py` lines 216-242):
`time.sleep(0.1)` runs unconditionally (line 223), then the enrichment
lookup (line 224), then timestamp normalization (line 227), then the
append.  A raise from the normalization aborts the loop: the sleep and
the lookup of the current iteration already happened, no result is
appended, and no further iteration runs. -/
def stepCandidate (ipEnv : IpEnv) (net : String → NetOutcome) (tzEnv : TZEnv)
    (token tz : String) (st : LoopState) (c : Candidate) : LoopState :=
  if st.raised then st
  else
    match parse_and_convert_timezone tzEnv c.timestamp_str tz with
    | .ret inst disp =>
      { results := st.results ++
          [mkAnalysisResult c inst disp
            (get_ip_info ipEnv net c.ip_address token st.cache).result]
        cache := (get_ip_info ipEnv net c.ip_address token st.cache).cache
        sleeps := st.sleeps + 1
        netCalls := st.netCalls +
          (if (get_ip_info ipEnv net c.ip_address token st.cache).networkCalled
           then 1 else 0)
        raised := false }
    | .raised =>
      { results := st.results
        cache := (get_ip_info ipEnv net c.ip_address token st.cache).cache
        sleeps := st.sleeps + 1
        netCalls := st.netCalls +
          (if (get_ip_info ipEnv net c.ip_address token st.cache).networkCalled
           then 1 else 0)
        raised := true }

/-- The per-candidate loop. -/
def processCandidates (ipEnv : IpEnv) (net : String → NetOutcome) (tzEnv : TZEnv)
    (token tz : String) (cands : List Candidate) (st : LoopState) : LoopState :=
  cands.foldl (stepCandidate ipEnv net tzEnv token tz) st

/-- Run metadata (`processing.py` lines 261-268); wall-clock values and
the resolved path come from the environment. -/
structure RunMetadata where
  input_file_sha256 : Option String
  analysis_start_time : String
  analysis_duration_seconds : Int
  input_filepath : String
  target_timezone : String
  app_version : Option String
deriving DecidableEq

/-- What `process_ip_analysis` does: return `None` (fatal), the bare
list `[]` of the early returns at lines 200 and 206, the wrapped
`{analysis_results, metadata}` dict of lines 257-270 — or not return at
all, when an exception escapes the per-candidate loop (the function has
a `try`/`finally` but no `except`). -/
inductive OrchReturn where
  | fatal
  | bareList (results : List AnalysisResult)
  | report (results : List AnalysisResult) (meta : RunMetadata)
  | raisedRun
deriving DecidableEq

/-- Return value plus the effect instrumentation of the run. -/
structure OrchOut where
  ret : OrchReturn
  sleeps : Nat
  netCalls : Nat

/-- External-world inputs of one orchestrator run. -/
structure RunEnv where
  ipEnv : IpEnv
  tzEnv : TZEnv
  net : String → NetOutcome
  gemini : GeminiOutcome
  fileExists : Bool
  readResult : Option String
  startTimeIso : String
  durationSeconds : Int
  resolvedPath : String

/-- Python falsiness of an optional credential string. -/
def falsyKey : Option String → Bool
  | none => true
  | some s => s.isEmpty

/-- `processing.process_ip_analysis`.  Progress and log emission are
pure effects and are not modelled. -/
def process_ip_analysis (env : RunEnv) (gemini_key ipinfo_token : Option String)
    (target_timezone : String) (input_file_hash app_version : Option String) :
    OrchOut :=
  if falsyKey gemini_key then ⟨.fatal, 0, 0⟩
  else if falsyKey ipinfo_token then ⟨.fatal, 0, 0⟩
  else if env.fileExists = false then ⟨.fatal, 0, 0⟩
  else
    match env.readResult with
    | none => ⟨.fatal, 0, 0⟩
    | some text =>
      if pyStrip text = "" then ⟨.bareList [], 0, 0⟩
      else
        match extract_ip_data_with_gemini env.ipEnv env.gemini (gemini_key.getD "") with
        | none => ⟨.fatal, 0, 0⟩
        | some [] => ⟨.bareList [], 0, 0⟩
        | some (c :: cs) =>
          if (processCandidates env.ipEnv env.net env.tzEnv
              (ipinfo_token.getD "") target_timezone (c :: cs) ⟨[], [], 0, 0, false⟩).raised
          then
            ⟨.raisedRun,
             (processCandidates env.ipEnv env.net env.tzEnv
                (ipinfo_token.getD "") target_timezone (c :: cs) ⟨[], [], 0, 0, false⟩).sleeps,
             (processCandidates env.ipEnv env.net env.tzEnv
                (ipinfo_token.getD "") target_timezone (c :: cs) ⟨[], [], 0, 0, false⟩).netCalls⟩
          else
            ⟨.report (processCandidates env.ipEnv env.net env.tzEnv
                (ipinfo_token.getD "") target_timezone (c :: cs) ⟨[], [], 0, 0, false⟩).results
              { input_file_sha256 := input_file_hash
                analysis_start_time := env.startTimeIso
                analysis_duration_seconds := env.durationSeconds
                input_filepath := env.resolvedPath
                target_timezone := target_timezone
                app_version := app_version },
             (processCandidates env.ipEnv env.net env.tzEnv
                (ipinfo_token.getD "") target_timezone (c :: cs) ⟨[], [], 0, 0, false⟩).sleeps,
             (processCandidates env.ipEnv env.net env.tzEnv
                (ipinfo_token.getD "") target_timezone (c :: cs) ⟨[], [], 0, 0, false⟩).netCalls⟩

/-! ## Lemmas about the validation loop and the per-candidate loop -/

/-- The `(ip, timestamp)` pair of a candidate. -/
def candPair (c : Candidate) : String × String := (c.ip_address, c.timestamp_str)

/-- The `(ip, raw timestamp)` pair of a result record. -/
def resPair (r : AnalysisResult) : String × String := (r.ip_address, r.raw_timestamp_str)

theorem validateGo_spec (env : IpEnv) (items : List ExtractItem) :
    ∀ seen : List (String × String),
      ((validateGo env items seen).map candPair).Nodup ∧
      (∀ p ∈ (validateGo env items seen).map candPair, p ∉ seen) ∧
      (∀ it ∈ items, ∀ p, itemPair env it = some p →
        p ∈ seen ∨ p ∈ (validateGo env items seen).map candPair) := by
  induction items with
  | nil =>
    intro seen
    refine ⟨by simp [validateGo], by simp [validateGo], by simp⟩
  | cons it rest ih =>
    intro seen
    rcases hp : itemPair env it with _ | p
    · have h := ih seen
      have hred : validateGo env (it :: rest) seen = validateGo env rest seen := by
        simp [validateGo, hp]
      rw [hred]
      refine ⟨h.1, h.2.1, ?_⟩
      intro it2 hmem p2 hp2
      rcases List.mem_cons.mp hmem with he | hm
      · rw [he, hp] at hp2
        exact Option.noConfusion hp2
      · exact h.2.2 it2 hm p2 hp2
    · by_cases hseen : p ∈ seen
      · have h := ih seen
        have hred : validateGo env (it :: rest) seen = validateGo env rest seen := by
          simp [validateGo, hp, hseen]
        rw [hred]
        refine ⟨h.1, h.2.1, ?_⟩
        intro it2 hmem p2 hp2
        rcases List.mem_cons.mp hmem with he | hm
        · rw [he, hp] at hp2
          cases hp2
          exact Or.inl hseen
        · exact h.2.2 it2 hm p2 hp2
      · have h := ih (p :: seen)
        have hred : validateGo env (it :: rest) seen =
            ⟨p.1, p.2⟩ :: validateGo env rest (p :: seen) := by
          simp [validateGo, hp, hseen]
        rw [hred]
        have hpair : candPair ⟨p.1, p.2⟩ = p := by simp [candPair]
        refine ⟨?_, ?_, ?_⟩
        · simp only [List.map_cons, hpair]
          refine List.nodup_cons.mpr ⟨?_, h.1⟩
          intro hc
          exact (h.2.1 p hc) (List.mem_cons_self p seen)
        · intro q hq
          simp only [List.map_cons, hpair] at hq
          rcases List.mem_cons.mp hq with he | hm
          · rw [he]; exact hseen
          · intro hqs
            exact (h.2.1 q hm) (List.mem_cons_of_mem p hqs)
        · intro it2 hmem p2 hp2
          rcases List.mem_cons.mp hmem with he | hm
          · rw [he, hp] at hp2
            cases hp2
            right
            simp only [List.map_cons, hpair]
            exact List.mem_cons_self p _
          · rcases h.2.2 it2 hm p2 hp2 with hin | hin
            · rcases List.mem_cons.mp hin with he2 | hs
              · right
                rw [he2]
                simp only [List.map_cons, hpair]
                exact List.mem_cons_self p _
              · exact Or.inl hs
            · right
              simp only [List.map_cons, hpair]
              exact List.mem_cons_of_mem p hin

theorem processCandidates_raised_fix (ipEnv : IpEnv) (net : String → NetOutcome)
    (tzEnv : TZEnv) (token tz : String) :
    ∀ (cands : List Candidate) (st : LoopState), st.raised = true →
      processCandidates ipEnv net tzEnv token tz cands st = st := by
  intro cands
  induction cands with
  | nil => intro st _; rfl
  | cons c cs ih =>
    intro st hst
    have hsc : stepCandidate ipEnv net tzEnv token tz st c = st := by
      simp [stepCandidate, hst]
    have hstep : processCandidates ipEnv net tzEnv token tz (c :: cs) st =
        processCandidates ipEnv net tzEnv token tz cs
          (stepCandidate ipEnv net tzEnv token tz st c) := rfl
    rw [hstep, hsc]
    exact ih st hst

theorem processCandidates_results (ipEnv : IpEnv) (net : String → NetOutcome)
    (tzEnv : TZEnv) (token tz : String) :
    ∀ (cands : List Candidate) (st : LoopState), st.raised = false →
      (processCandidates ipEnv net tzEnv token tz cands st).raised = false →
      (processCandidates ipEnv net tzEnv token tz cands st).results.map resPair =
        st.results.map resPair ++ cands.map candPair := by
  intro cands
  induction cands with
  | nil => intro st _ _; simp [processCandidates]
  | cons c cs ih =>
    intro st hst hdone
    have hstep : processCandidates ipEnv net tzEnv token tz (c :: cs) st =
        processCandidates ipEnv net tzEnv token tz cs
          (stepCandidate ipEnv net tzEnv token tz st c) := rfl
    cases hts : parse_and_convert_timezone tzEnv c.timestamp_str tz with
    | ret inst disp =>
      have hsc : stepCandidate ipEnv net tzEnv token tz st c =
          { results := st.results ++
              [mkAnalysisResult c inst disp
                (get_ip_info ipEnv net c.ip_address token st.cache).result]
            cache := (get_ip_info ipEnv net c.ip_address token st.cache).cache
            sleeps := st.sleeps + 1
            netCalls := st.netCalls +
              (if (get_ip_info ipEnv net c.ip_address token st.cache).networkCalled
               then 1 else 0)
            raised := false } := by
        simp [stepCandidate, hst, hts]
      rw [hstep, hsc] at hdone
      rw [hstep, hsc, ih _ rfl hdone]
      simp [mkAnalysisResult, resPair, candPair]
    | raised =>
      have hsc : (stepCandidate ipEnv net tzEnv token tz st c).raised = true := by
        simp [stepCandidate, hst, hts]
      rw [hstep,
        processCandidates_raised_fix ipEnv net tzEnv token tz cs _ hsc] at hdone
      rw [hsc] at hdone
      exact Bool.noConfusion hdone

theorem processCandidates_sleeps (ipEnv : IpEnv) (net : String → NetOutcome)
    (tzEnv : TZEnv) (token tz : String) :
    ∀ (cands : List Candidate) (st : LoopState), st.raised = false →
      (processCandidates ipEnv net tzEnv token tz cands st).raised = false →
      (processCandidates ipEnv net tzEnv token tz cands st).sleeps =
        st.sleeps + cands.length := by
  intro cands
  induction cands with
  | nil => intro st _ _; simp [processCandidates]
  | cons c cs ih =>
    intro st hst hdone
    have hstep : processCandidates ipEnv net tzEnv token tz (c :: cs) st =
        processCandidates ipEnv net tzEnv token tz cs
          (stepCandidate ipEnv net tzEnv token tz st c) := rfl
    cases hts : parse_and_convert_timezone tzEnv c.timestamp_str tz with
    | ret inst disp =>
      have hsc : stepCandidate ipEnv net tzEnv token tz st c =
          { results := st.results ++
              [mkAnalysisResult c inst disp
                (get_ip_info ipEnv net c.ip_address token st.cache).result]
            cache := (get_ip_info ipEnv net c.ip_address token st.cache).cache
            sleeps := st.sleeps + 1
            netCalls := st.netCalls +
              (if (get_ip_info ipEnv net c.ip_address token st.cache).networkCalled
               then 1 else 0)
            raised := false } := by
        simp [stepCandidate, hst, hts]
      rw [hstep, hsc] at hdone
      rw [hstep, hsc, ih _ rfl hdone]
      simp
      omega
    | raised =>
      have hsc : (stepCandidate ipEnv net tzEnv token tz st c).raised = true := by
        simp [stepCandidate, hst, hts]
      rw [hstep,
        processCandidates_raised_fix ipEnv net tzEnv token tz cs _ hsc] at hdone
      rw [hsc] at hdone
      exact Bool.noConfusion hdone

/-! ## Claim theorems about the extraction adapter and orchestrator -/

/-- C6: validation output pairs are duplicate-free (identical cleaned
pairs collapse to one), every surviving element's cleaned pair appears
in the output (so the same IP with two distinct timestamps yields two
candidates), and the orchestrator's result list projects to exactly the
deduplicated pair list. -/
theorem dedup_exact (env : IpEnv) (items : List ExtractItem) :
    ((validateExtracted env items).map candPair).Nodup ∧
    (∀ it ∈ items, ∀ p, itemPair env it = some p →
      p ∈ (validateExtracted env items).map candPair) ∧
    (∀ (ipEnv2 : IpEnv) (net : String → NetOutcome) (tzEnv : TZEnv) (token tz : String),
      (processCandidates ipEnv2 net tzEnv token tz (validateExtracted env items)
        ⟨[], [], 0, 0, false⟩).raised = false →
      (processCandidates ipEnv2 net tzEnv token tz (validateExtracted env items)
        ⟨[], [], 0, 0, false⟩).results.map resPair =
      (validateExtracted env items).map candPair) := by
  have h := validateGo_spec env items []
  refine ⟨h.1, ?_, ?_⟩
  · intro it hm p hp
    rcases h.2.2 it hm p hp with hin | hin
    · exact absurd hin (List.not_mem_nil p)
    · exact hin
  · intro ipEnv2 net tzEnv token tz hdone
    rw [processCandidates_results ipEnv2 net tzEnv token tz _ _ rfl hdone]
    simp

/-- Items for the C6 witness: two identical pairs plus a distinct
timestamp for the same IP. -/
def itemsC6 : List ExtractItem :=
  [.entry (.pstr "8.8.8.8") (.pstr "2024-03-15 10:30:00"),
   .entry (.pstr "8.8.8.8") (.pstr "2024-03-15 10:30:00"),
   .entry (.pstr "8.8.8.8") (.pstr "2024-03-16 11:00:00")]

/-- Witness for C6: both timestamp-distinct pairs survive, and the
orchestrator loop over a completed concrete run reflects the pairs. -/
theorem dedup_exact_witness :
    ("8.8.8.8", "2024-03-15 10:30:00") ∈ (validateExtracted envA itemsC6).map candPair ∧
    ("8.8.8.8", "2024-03-16 11:00:00") ∈ (validateExtracted envA itemsC6).map candPair ∧
    (processCandidates envA netA tzEnvB "t" "UTC" (validateExtracted envA itemsC6)
      ⟨[], [], 0, 0, false⟩).results.map resPair =
      (validateExtracted envA itemsC6).map candPair :=
  ⟨(dedup_exact envA itemsC6).2.1
      (.entry (.pstr "8.8.8.8") (.pstr "2024-03-15 10:30:00")) (by decide)
      ("8.8.8.8", "2024-03-15 10:30:00") (by decide),
   (dedup_exact envA itemsC6).2.1
      (.entry (.pstr "8.8.8.8") (.pstr "2024-03-16 11:00:00")) (by decide)
      ("8.8.8.8", "2024-03-16 11:00:00") (by decide),
   (dedup_exact envA itemsC6).2.2 envA netA tzEnvB "t" "UTC" (by decide)⟩

/-- C3 (amended): the fixed inter-call delay is executed once per
candidate of a completed loop, unconditionally — including candidates
resolved from the cache or scope-classified without any network
call. -/
theorem sleep_once_per_candidate (ipEnv : IpEnv) (net : String → NetOutcome)
    (tzEnv : TZEnv) (token tz : String) (cands : List Candidate) (st : LoopState)
    (hst : st.raised = false)
    (hdone : (processCandidates ipEnv net tzEnv token tz cands st).raised = false) :
    (processCandidates ipEnv net tzEnv token tz cands st).sleeps =
      st.sleeps + cands.length :=
  processCandidates_sleeps ipEnv net tzEnv token tz cands st hst hdone

/-- Witness for C3 (amended) on a single scope-classified candidate. -/
theorem sleep_once_per_candidate_witness :
    (processCandidates envA netA tzEnvB "t" "UTC"
      [⟨"192.168.1.1", ""⟩] ⟨[], [], 0, 0, false⟩).sleeps = 0 + 1 :=
  sleep_once_per_candidate envA netA tzEnvB "t" "UTC"
    [⟨"192.168.1.1", ""⟩] ⟨[], [], 0, 0, false⟩ rfl (by decide)

/-- Run whose single candidate is the private IP 192.168.1.1
(scope-classified, no network call). -/
def runEnvC3 : RunEnv :=
  { ipEnv := envA, tzEnv := tzEnvB, net := netA
    gemini := .parsed [.entry (.pstr "192.168.1.1") (.pstr "")]
    fileExists := true, readResult := some "log"
    startTimeIso := "t0", durationSeconds := 0, resolvedPath := "/in.txt" }

/-- C3 (counterexample): in a run whose only candidate is
scope-classified internally, zero network calls are made yet the delay
is still executed once — refuting "no delay is applied when no network
call is made". -/
theorem sleep_despite_no_network_call :
    (process_ip_analysis runEnvC3 (some "k") (some "t") "UTC" none none).netCalls = 0 ∧
    (process_ip_analysis runEnvC3 (some "k") (some "t") "UTC" none none).sleeps = 1 := by
  constructor <;> decide

/-- Run with both credentials, an existing file and empty content. -/
def runEnvEmptyFile : RunEnv :=
  { ipEnv := envA, tzEnv := tzEnvB, net := netA, gemini := .parsed []
    fileExists := true, readResult := some " "
    startTimeIso := "t0", durationSeconds := 0, resolvedPath := "/in.txt" }

/-- Run with both credentials, non-empty content, extraction parsing an
array that yields zero candidates. -/
def runEnvNoCands : RunEnv :=
  { ipEnv := envA, tzEnv := tzEnvB, net := netA, gemini := .parsed []
    fileExists := true, readResult := some "log"
    startTimeIso := "t0", durationSeconds := 0, resolvedPath := "/in.txt" }

/-- C1 (code bug): with both credentials present and the input file
readable, empty content — or extraction yielding zero candidates —
makes the orchestrator return the bare empty list of
`processing.py` lines 200/206, not the `{analysis_results, metadata}`
wrapper of lines 257-270 (and not `None`): the run metadata is absent
from the returned value. -/
theorem empty_run_returns_bare_list_not_report :
    ((process_ip_analysis runEnvEmptyFile (some "k") (some "t") "UTC"
        (some "h") (some "v")).ret = .bareList []) ∧
    (∀ rs meta, (process_ip_analysis runEnvEmptyFile (some "k") (some "t") "UTC"
        (some "h") (some "v")).ret ≠ .report rs meta) ∧
    ((process_ip_analysis runEnvNoCands (some "k") (some "t") "UTC"
        (some "h") (some "v")).ret = .bareList []) ∧
    (∀ rs meta, (process_ip_analysis runEnvNoCands (some "k") (some "t") "UTC"
        (some "h") (some "v")).ret ≠ .report rs meta) := by
  have h1 : (process_ip_analysis runEnvEmptyFile (some "k") (some "t") "UTC"
      (some "h") (some "v")).ret = .bareList [] := by decide
  have h2 : (process_ip_analysis runEnvNoCands (some "k") (some "t") "UTC"
      (some "h") (some "v")).ret = .bareList [] := by decide
  refine ⟨h1, ?_, h2, ?_⟩
  · intro rs meta hc
    rw [h1] at hc
    exact OrchReturn.noConfusion hc
  · intro rs meta hc
    rw [h2] at hc
    exact OrchReturn.noConfusion hc

end IPAnalyzer
